import Mathlib

/-!
# VT-Parking-Finder backend: shallow embedding and verification

This file embeds the backend of the VT-Parking-Finder repository
(`src/backend/db.py` and `src/backend/server.py`) as executable Lean
definitions and proves or refutes the testable properties stated in the
specification.

Modelling conventions:
* Time is `Nat` (seconds). The database row timestamps and JWT `exp`
  timestamps live on this clock; functions that read the wall clock in the
  source (`datetime.datetime.utcnow()`, SQL `CURRENT_TIMESTAMP`) receive the
  current time as an explicit `now : Time` argument.
* The JWT library (`pyjwt`) is embedded symbolically: a well-formed token is
  its payload together with the secret it was signed with, and a structurally
  corrupted token is a separate constructor. `jwt.decode` succeeds exactly
  when the secret matches and the token is not expired, matching the library's
  observable behaviour (`ExpiredSignatureError` / `InvalidTokenError` are both
  mapped by the source to `None`).
* `hashlib.sha256(...).hexdigest()` is an external one-way digest; it is
  embedded as a deterministic injective encoding, which is the only property
  the verified claims rely on (the same input always digests to the same
  stored string).
* The PostgreSQL store is embedded as an explicit record of table contents;
  each SQL statement of the source becomes a pure state transformation, and
  the store calls a request makes are collected as an explicit trace where a
  claim observes them.
-/

/-- Wall-clock timestamps, in seconds. -/
abbrev Time := Nat

/-- `JWT_SECRET` from `db.py`: the process-wide static signing secret. -/
def JWT_SECRET : String := "VT_Parking_Static_Test_Secret_Key_2025"

/-- `JWT_EXPIRATION_HOURS` from `db.py`. -/
def JWT_EXPIRATION_HOURS : Nat := 24

/-- The payload carried inside a session token, as built by
`create_jwt_token`: `{user_id, username, exp}`. -/
structure Claims where
  user_id : Nat
  username : String
  exp : Time
deriving Repr, DecidableEq

/-- A session token as seen by the server. A `signed` token records the
payload and the secret used to sign it; `corrupt` stands for any token string
that does not decode as a JWT at all (structural corruption). -/
inductive Token where
  | signed (payload : Claims) (secret : String)
  | corrupt
deriving Repr, DecidableEq

/-- `create_jwt_token(user_id, username)` from `db.py`: payload
`{user_id, username, exp = utcnow() + 24h}` signed with `JWT_SECRET`. -/
def create_jwt_token (user_id : Nat) (username : String) (now : Time) : Token :=
  Token.signed
    { user_id := user_id
      username := username
      exp := now + JWT_EXPIRATION_HOURS * 3600 }
    JWT_SECRET

/-- `verify_jwt_token(token)` from `db.py`: `jwt.decode` returns the payload
when the signature verifies against `JWT_SECRET` and the token is not
expired; the source catches `ExpiredSignatureError` and `InvalidTokenError`
and returns `None` for both. -/
def verify_jwt_token (token : Token) (now : Time) : Option Claims :=
  match token with
  | Token.signed payload secret =>
      if secret = JWT_SECRET then
        if payload.exp ≤ now then none else some payload
      else none
  | Token.corrupt => none

/-- External digest `sha256(password.encode()).hexdigest()` used by
`authenticate` and `signup_user`. Embedded as a deterministic injective
encoding of the input; the claims rely only on determinism of the digest. -/
def sha256_hexdigest (s : String) : String := "sha256:" ++ s

/-- A row of the `users(id, username, password, car)` table. The `password`
column stores the hex digest, never the plaintext. -/
structure UserRow where
  id : Nat
  username : String
  password : String
  car : Option String
deriving Repr, DecidableEq

/-- A row of the `ultrasonic_data` table: `sensor_id BIGINT` (nullable),
`distance FLOAT NOT NULL`, `is_occupied BOOLEAN NOT NULL`, and the
server-assigned `timestamp`. `FLOAT` values are embedded as rationals: the
claims treat distances as opaque payload and perform no arithmetic on them. -/
structure Reading where
  sensor_id : Option Int
  distance : Rat
  is_occupied : Bool
  timestamp : Time
deriving Repr, DecidableEq

/-- A row of the `spot(id, occupancy)` table. -/
structure SpotRow where
  id : Int
  occupancy : Bool
deriving Repr, DecidableEq

/-- The relational store: table contents plus the `BIGSERIAL` counter of the
`users` table. `favorites` rows are `(user_id, spot_id)` pairs. -/
structure DB where
  users : List UserRow
  nextUserId : Nat
  spots : List SpotRow
  favorites : List (Nat × Int)
  readings : List Reading
deriving Repr, DecidableEq

/-- The empty store. -/
def DB.empty : DB :=
  { users := [], nextUserId := 1, spots := [], favorites := [], readings := [] }

/-- `user_exists(mydb, username)` from `db.py`:
`SELECT * FROM users WHERE username = %s` and truthiness of `fetchone()`. -/
def user_exists (db : DB) (username : String) : Bool :=
  db.users.any (fun r => r.username == username)

/-- Number of `users` rows holding the given username (the spec's
"row count for that username"). -/
def usernameRowCount (db : DB) (username : String) : Nat :=
  (db.users.filter (fun r => r.username == username)).length

/-- `get_user_info(mydb, username)` from `db.py`:
`SELECT u.id, u.car FROM users u WHERE u.username = %s`, `fetchone()`. -/
def get_user_info (db : DB) (username : String) : Option (Nat × Option String) :=
  (db.users.find? (fun r => r.username == username)).map (fun r => (r.id, r.car))

/-- Result dictionary of `signup_user`: `{user_id, token, car}` plus the
mutated store. -/
structure SignupResult where
  user_id : Nat
  token : Token
  car : Option String
  db : DB
deriving Repr

/-- `signup_user(mydb, username, password)` from `db.py`: inserts
`(username, sha256(password))` into `users` returning the fresh serial id,
commits, issues a token for the new user, and reads back the user info. -/
def signup_user (db : DB) (username password : String) (now : Time) : SignupResult :=
  let hashed_password := sha256_hexdigest password
  let user_id := db.nextUserId
  let db' : DB :=
    { db with
        users := db.users ++ [{ id := user_id, username := username,
                                password := hashed_password, car := none }]
        nextUserId := db.nextUserId + 1 }
  let token := create_jwt_token user_id username now
  let user_info := get_user_info db' username
  { user_id := user_id
    token := token
    car := (user_info.map Prod.snd).join
    db := db' }

/-- `authenticate(mydb, username, password)` from `db.py`:
`SELECT id, username FROM users WHERE username = %s AND password = %s`;
on a match returns `{success: True, user_id, token}` with a freshly issued
token, otherwise `{success: False}`. `none` embeds the failure dictionary. -/
def authenticate (db : DB) (username password : String) (now : Time) :
    Option (Nat × Token) :=
  let hashed_password := sha256_hexdigest password
  match db.users.find?
      (fun r => r.username == username && r.password == hashed_password) with
  | some r => some (r.id, create_jwt_token r.id r.username now)
  | none => none

/-- `get_user_id_from_token(token)` from `db.py`. -/
def get_user_id_from_token (token : Token) (now : Time) : Option Nat :=
  (verify_jwt_token token now).map Claims.user_id

/-- A JSON value as carried in a request body. Python's `dict.get(k)` returns
`None` both for an absent key and for a JSON `null`, so both are embedded as
`JsonVal.null`. -/
inductive JsonVal where
  | null
  | bool (b : Bool)
  | num (q : Rat)
  | str (s : String)
deriving Repr, DecidableEq

/-- PostgreSQL's acceptance of a parameter for a `BOOLEAN NOT NULL` column
(via the psycopg2 adapter): Python booleans are accepted, the standard
boolean input strings are cast, `NULL` violates the NOT NULL constraint, and
numeric literals have no assignment cast to `boolean`. (String-prefix
abbreviations of the boolean literals are not modelled; no claim depends on
them.) -/
def pgBoolNotNull (v : JsonVal) : Option Bool :=
  match v with
  | JsonVal.bool b => some b
  | JsonVal.str s =>
      let t := s.trim.toLower
      if t ∈ ["t", "true", "y", "yes", "on", "1"] then some true
      else if t ∈ ["f", "false", "n", "no", "off", "0"] then some false
      else none
  | JsonVal.null => none
  | JsonVal.num _ => none

/-- PostgreSQL's acceptance of a parameter for a `FLOAT NOT NULL` column:
numeric values are accepted, `NULL` violates NOT NULL, booleans have no cast.
(String-literal casts are not modelled; no claim depends on them.) -/
def pgFloatNotNull (v : JsonVal) : Option Rat :=
  match v with
  | JsonVal.num q => some q
  | JsonVal.null => none
  | JsonVal.bool _ => none
  | JsonVal.str _ => none

/-- PostgreSQL's acceptance of a parameter for a nullable `BIGINT` column:
`NULL` is stored as NULL, integral numerics are stored, booleans have no
cast. (String-literal and rounding casts are not modelled; no claim depends
on them.) -/
def pgBigintNullable (v : JsonVal) : Option (Option Int) :=
  match v with
  | JsonVal.null => some none
  | JsonVal.num q => if q.den = 1 then some (some q.num) else none
  | JsonVal.bool _ => none
  | JsonVal.str _ => none

/-- One SQL statement issued against the store; requests accumulate a trace
of these so that "component receives zero calls" is observable. -/
inductive StoreCall where
  | favoritesCreateTable
  | favoritesSelect
  | favoritesDelete
  | favoritesInsert
  | usersUpdateCar
  | spotUpdate
  | ultrasonicCreateTable
  | ultrasonicInsert
  | ultrasonicSelectLatest
deriving Repr, DecidableEq

/-- `get_user_favorites(mydb, user_id)` from `db.py`: ensures the
`favorites` table exists, then `SELECT spot_id FROM favorites WHERE
user_id = %s` and collects the first column of every row. -/
def get_user_favorites (db : DB) (user_id : Nat) :
    List Int × DB × List StoreCall :=
  ((db.favorites.filter (fun p => p.1 == user_id)).map Prod.snd,
   db,
   [StoreCall.favoritesCreateTable, StoreCall.favoritesSelect])

/-- `set_user_favorites(mydb, user_id, spot_ids)` from `db.py`: ensures the
`favorites` table exists, `DELETE FROM favorites WHERE user_id = %s`, then
one `INSERT` per supplied spot id, and commits once at the end. -/
def set_user_favorites (db : DB) (user_id : Nat) (spot_ids : List Int) :
    DB × List StoreCall :=
  ({ db with
      favorites :=
        db.favorites.filter (fun p => !(p.1 == user_id)) ++
          spot_ids.map (fun s => (user_id, s)) },
   StoreCall.favoritesCreateTable :: StoreCall.favoritesDelete ::
     spot_ids.map (fun _ => StoreCall.favoritesInsert))

/-- A request body as handed to the server: either text that does not parse
as JSON (`json.loads` / `request.get_json()` raises on it) or a JSON object
with string keys. -/
inductive ReqBody where
  | notJson (raw : String)
  | jsonObj (fields : List (String × JsonVal))
deriving Repr, DecidableEq

/-- `fields[k]` lookup on a JSON object: `some` when the key is present. -/
def jsonLookup (fields : List (String × JsonVal)) (k : String) : Option JsonVal :=
  (fields.find? (fun p => p.1 == k)).map Prod.snd

/-- `data.get(k)` on a JSON object: `JsonVal.null` when the key is absent
(Python `None`). -/
def jsonGet (fields : List (String × JsonVal)) (k : String) : JsonVal :=
  (jsonLookup fields k).getD JsonVal.null

/-- `update_car(mydb, data, user_id)` from `db.py`: `json.loads(data)`,
`data_dict['model']`, then `UPDATE users SET car = %s WHERE id = %s` and
commit. A parse error or a missing `model` key raises before the cursor
executes anything, so the error branches carry an empty call trace and an
unchanged store. The stored model is the string form of the JSON value
(the claims only exercise string models). -/
def update_car (db : DB) (data : ReqBody) (user_id : Nat) :
    Except String (DB × List StoreCall) :=
  match data with
  | ReqBody.notJson _ => Except.error "JSONDecodeError"
  | ReqBody.jsonObj fields =>
      match jsonLookup fields "model" with
      | none => Except.error "KeyError: model"
      | some v =>
          let car_model :=
            match v with
            | JsonVal.str s => some s
            | JsonVal.null => none
            | JsonVal.bool b => some (toString b)
            | JsonVal.num q => some (toString q)
          Except.ok
            ({ db with
                users := db.users.map
                  (fun r => if r.id == user_id then { r with car := car_model } else r) },
             [StoreCall.usersUpdateCar])

/-- `update_entity(mydb, data)` from `db.py`: `json.loads(data)`, reads
`data_dict['spot_id']` and `data_dict['spot_occupancy']`, then
`UPDATE spot SET occupancy = %s WHERE id = %s` and commit, returning
`'complete'`. A parse error, a missing key, or a parameter the `spot`
columns reject raises out of the function; every raising branch leaves the
store unchanged (the update is the only statement). -/
def update_entity (db : DB) (data : ReqBody) : Except String (DB × String) :=
  match data with
  | ReqBody.notJson _ => Except.error "JSONDecodeError"
  | ReqBody.jsonObj fields =>
      match jsonLookup fields "spot_id", jsonLookup fields "spot_occupancy" with
      | none, _ => Except.error "KeyError: spot_id"
      | some _, none => Except.error "KeyError: spot_occupancy"
      | some idv, some occv =>
          match pgBigintNullable idv, pgBoolNotNull occv with
          | some (some spot_id), some occupancy =>
              Except.ok
                ({ db with
                    spots := db.spots.map
                      (fun r => if r.id == spot_id then { r with occupancy := occupancy } else r) },
                 "complete")
          | _, _ => Except.error "DatabaseError"

/-- `insert_ultrasonic_data(mydb, distance, is_occupied, sensor_id)` from
`db.py`: always first executes `CREATE TABLE IF NOT EXISTS ultrasonic_data`
and commits, then attempts the `INSERT`; the row's timestamp is the
server-assigned `CURRENT_TIMESTAMP`. Any exception is caught and turned
into `False` with no row committed (the insert is a single statement). -/
def insert_ultrasonic_data (db : DB) (distance is_occupied sensor_id : JsonVal)
    (now : Time) : Bool × DB × List StoreCall :=
  match pgFloatNotNull distance, pgBoolNotNull is_occupied,
        pgBigintNullable sensor_id with
  | some d, some b, some sid =>
      (true,
       { db with readings := db.readings ++
           [{ sensor_id := sid, distance := d, is_occupied := b, timestamp := now }] },
       [StoreCall.ultrasonicCreateTable, StoreCall.ultrasonicInsert])
  | _, _, _ =>
      (false, db, [StoreCall.ultrasonicCreateTable, StoreCall.ultrasonicInsert])

/-- The response dictionary of `get_latest_sensor_data`. -/
structure SensorData where
  is_occupied : Bool
  distance : Rat
  timestamp : Time
deriving Repr, DecidableEq

/-- `ORDER BY timestamp DESC LIMIT 1` over a list of readings: the reading
with the maximal timestamp (on equal timestamps the sort order of the store
is unspecified; this embedding keeps the later row, and every theorem that
touches a tie carries a hypothesis making the maximum unique). -/
def latestByTimestamp : List Reading → Option Reading
  | [] => none
  | r :: rs =>
      match latestByTimestamp rs with
      | none => some r
      | some m => if r.timestamp > m.timestamp then some r else some m

/-- `get_latest_sensor_data(mydb, sensor_id)` from `db.py`:
`SELECT is_occupied, distance, timestamp FROM ultrasonic_data WHERE
sensor_id = %s ORDER BY timestamp DESC LIMIT 1`, packaged as a dictionary,
or `None` when no row matches. -/
def get_latest_sensor_data (db : DB) (sensor_id : Int) : Option SensorData :=
  (latestByTimestamp
      (db.readings.filter (fun r => r.sensor_id == some sensor_id))).map
    (fun r => { is_occupied := r.is_occupied, distance := r.distance,
                timestamp := r.timestamp })

/-- The `Authorization` header of a request: absent, present but not of the
form `Bearer <token>` (including an empty bearer token, which the source
treats as missing), or a bearer token. -/
inductive AuthHeader where
  | missing
  | notBearer (raw : String)
  | bearer (t : Token)
deriving Repr, DecidableEq

namespace Server

/-- Token extraction of the `jwt_required` decorator in `server.py`: the
header must be present and start with `Bearer `, otherwise no token is
found. -/
def extractToken (header : AuthHeader) : Option Token :=
  match header with
  | AuthHeader.bearer t => some t
  | AuthHeader.missing => none
  | AuthHeader.notBearer _ => none

/-- The `jwt_required` decorator in `server.py`: with no token, or a token
`verify_jwt_token` rejects, the wrapped view is never entered and the
request fails with 401; otherwise the view runs with the claims attached to
the request. `fail` embeds the decorator's own 401 response (built before
any view code runs), `ok` the wrapped view. -/
def jwt_required (header : AuthHeader) (now : Time) (fail : α)
    (ok : Claims → α) : α :=
  match extractToken header with
  | none => fail
  | some token =>
      match verify_jwt_token token now with
      | none => fail
      | some payload => ok payload

/-- `signup` route (`POST /signup`) in `server.py`: rejects a duplicate
username with 409 before calling `signup_user`; otherwise signs the user up
and answers 200 with the token and user id. The body has already passed the
`request.get_json()` check. -/
def signup (db : DB) (username password : String) (now : Time) :
    Nat × Option (Nat × Token) × DB :=
  if user_exists db username then (409, none, db)
  else
    let result := signup_user db username password now
    (200, some (result.user_id, result.token), result.db)

/-- `login` route (`POST /login`) in `server.py`: delegates to
`authenticate`; 200 with token and user id on success, 401 otherwise. -/
def login (db : DB) (username password : String) (now : Time) :
    Nat × Option (Nat × Token) :=
  match authenticate db username password now with
  | some (user_id, token) => (200, some (user_id, token))
  | none => (401, none)

/-- `update_occupancy` route (`PUT /occupancy`) in `server.py`: passes the
raw body to `update_entity` with no error handling of its own; an exception
raised there escapes the view and the framework answers 500. -/
def update_occupancy (db : DB) (body : ReqBody) : Nat × DB :=
  match update_entity db body with
  | Except.ok (db', _) => (200, db')
  | Except.error _ => (500, db)

/-- `get_favorites` route (`GET /favorites`) in `server.py`, wrapped in
`jwt_required`: reads the favorites of the user identified by the token.
The result is (status, body, store, trace of store calls). -/
def get_favorites (db : DB) (header : AuthHeader) (now : Time) :
    Nat × Option (List Int) × DB × List StoreCall :=
  jwt_required header now (401, none, db, [])
    (fun payload =>
      let (favorites, db', calls) := get_user_favorites db payload.user_id
      (200, some favorites, db', calls))

/-- `update_favorites` route (`POST /favorites`) in `server.py`, wrapped in
`jwt_required`: replaces the favorites of the user identified by the token
with `data.get('favorites', [])`. -/
def update_favorites (db : DB) (header : AuthHeader) (now : Time)
    (favorites : List Int) : Nat × DB × List StoreCall :=
  jwt_required header now (401, db, [])
    (fun payload =>
      let (db', calls) := set_user_favorites db payload.user_id favorites
      (200, db', calls))

/-- The store-layer `update_car` of `db.py`, captured here before the route
of the same name shadows it inside this namespace. -/
def store_update_car (db : DB) (data : ReqBody) (user_id : Nat) :
    Except String (DB × List StoreCall) :=
  update_car db data user_id

/-- `update_car` route (`PUT /car`) in `server.py`, wrapped in
`jwt_required`: passes the raw body and the token's user id to the store's
`update_car`; an exception raised there escapes the view and the framework
answers 500, with nothing executed against the store. -/
def update_car (db : DB) (header : AuthHeader) (now : Time) (body : ReqBody) :
    Nat × DB × List StoreCall :=
  jwt_required header now (401, db, [])
    (fun payload =>
      match store_update_car db body payload.user_id with
      | Except.ok (db', calls) => (200, db', calls)
      | Except.error _ => (500, db, []))

/-- Digit-string evaluation for `parsePyInt`: `none` unless every character
is a decimal digit. -/
def digitsValAux : List Char → Nat → Option Nat
  | [], acc => some acc
  | c :: rest, acc =>
      if c.isDigit then digitsValAux rest (acc * 10 + (c.toNat - 48)) else none

/-- Python's `int(s)` as used by Flask's `type=int` query-argument
conversion; when the conversion raises, Flask falls back to the default.
The model accepts an optional leading minus sign followed by one or more
decimal digits (Python's tolerance for surrounding whitespace, a leading
plus, and digit-group underscores is not modelled; no claim depends on
those inputs). -/
def parsePyInt (s : String) : Option Int :=
  match s.data with
  | [] => none
  | '-' :: rest =>
      match rest with
      | [] => none
      | _ => (digitsValAux rest 0).map (fun n => -(n : Int))
  | l => (digitsValAux l 0).map (fun n => (n : Int))

/-- `get_sensor_data` route (`GET /sensor-data`) in `server.py`:
`request.args.get('sensor_id', default=1, type=int)` — a missing argument
or one that `int()` rejects yields the default `1` — then
`get_latest_sensor_data`, answering 200 with the data or 404. -/
def get_sensor_data (db : DB) (arg : Option String) : Nat × Option SensorData :=
  let sensor_id : Int :=
    match arg with
    | none => 1
    | some s => (parsePyInt s).getD 1
  match get_latest_sensor_data db sensor_id with
  | some data => (200, some data)
  | none => (404, none)

/-- `receive_sensor_data` route (`POST /upload`) in `server.py`: parses the
JSON body (a parse failure is caught by the route's `except` and answered
500), reads `sensor_id`, `distance` and `is_occupied` with `data.get` (so
an absent field becomes `None`), and hands them unvalidated to
`insert_ultrasonic_data`; 200 when the insert reports success, 500
otherwise. -/
def receive_sensor_data (db : DB) (body : ReqBody) (now : Time) :
    Nat × DB × List StoreCall :=
  match body with
  | ReqBody.notJson _ => (500, db, [])
  | ReqBody.jsonObj fields =>
      let sensor_id := jsonGet fields "sensor_id"
      let distance := jsonGet fields "distance"
      let is_occupied := jsonGet fields "is_occupied"
      let (ok, db', calls) := insert_ultrasonic_data db distance is_occupied sensor_id now
      if ok then (200, db', calls) else (500, db', calls)

end Server

/-! ## Helper lemmas -/

/-- Rows surviving a filter that excludes `user_id` never match `user_id`. -/
theorem filter_user_of_filter_not_user (u : Nat) (l : List (Nat × Int)) :
    (l.filter (fun p => !(p.1 == u))).filter (fun p => p.1 == u) = [] := by
  rw [List.filter_filter]
  apply List.filter_eq_nil_iff.mpr
  intro a _
  cases h : a.1 == u <;> simp [h]

/-- `find?` skips a first block that contains no match. -/
theorem find?_append_of_none {α : Type} (p : α → Bool) {l₁ : List α}
    (l₂ : List α) (h : l₁.find? p = none) :
    (l₁ ++ l₂).find? p = l₂.find? p := by
  rw [List.find?_append, h, Option.none_or]

/-- A username with a positive row count exists. -/
theorem user_exists_of_rowCount_pos (db : DB) (username : String)
    (h : usernameRowCount db username ≠ 0) :
    user_exists db username = true := by
  unfold usernameRowCount at h
  unfold user_exists
  rw [List.any_eq_true]
  have hne : db.users.filter (fun r => r.username == username) ≠ [] := by
    intro hnil
    rw [hnil] at h
    exact h rfl
  obtain ⟨r, hr⟩ := List.exists_mem_of_ne_nil _ hne
  obtain ⟨hmem, hpred⟩ := List.mem_filter.mp hr
  exact ⟨r, hmem, hpred⟩

/-! ## Claim theorems -/

/-- **C3.** `verify_jwt_token` returns `None` (the source's `Invalid`) for
every token whose `exp` lies in the past, for every token signed with a
secret other than the issuing `JWT_SECRET`, and for every structurally
corrupted token; in none of these cases are claims returned. -/
theorem C3_verify_rejects_expired_forged_corrupt :
    (∀ (payload : Claims) (now : Time), payload.exp < now →
      verify_jwt_token (Token.signed payload JWT_SECRET) now = none) ∧
    (∀ (payload : Claims) (secret : String) (now : Time), secret ≠ JWT_SECRET →
      verify_jwt_token (Token.signed payload secret) now = none) ∧
    (∀ now : Time, verify_jwt_token Token.corrupt now = none) := by
  refine ⟨?_, ?_, ?_⟩
  · intro payload now h
    simp [verify_jwt_token, Nat.le_of_lt h]
  · intro payload secret now h
    simp [verify_jwt_token, h]
  · intro now
    rfl

/-- Witness for C3 at concrete tokens: an expired token, a token signed with
a different secret, and a corrupted token are all rejected at time 10. -/
theorem C3_witness :
    verify_jwt_token (Token.signed ⟨1, "alice", 5⟩ JWT_SECRET) 10 = none ∧
    verify_jwt_token (Token.signed ⟨1, "alice", 100⟩ "other-secret") 10 = none ∧
    verify_jwt_token Token.corrupt 10 = none :=
  ⟨C3_verify_rejects_expired_forged_corrupt.1 ⟨1, "alice", 5⟩ 10 (by decide),
   C3_verify_rejects_expired_forged_corrupt.2.1 ⟨1, "alice", 100⟩ "other-secret" 10
     (by decide),
   C3_verify_rejects_expired_forged_corrupt.2.2 10⟩

/-- **C9, counterexample.** The claim asserts that the failure returned for
an expired token and the failure returned for a corrupted token are distinct
observable values. In the source both `except` branches of
`verify_jwt_token` return `None`: at a concrete expired token and a
corrupted token the two outcomes are the very same value. -/
theorem C9_counterexample :
    verify_jwt_token (Token.signed ⟨1, "alice", 5⟩ JWT_SECRET) 10 =
      verify_jwt_token Token.corrupt 10 ∧
    verify_jwt_token (Token.signed ⟨1, "alice", 5⟩ JWT_SECRET) 10 = none := by
  constructor <;> decide

/-- **C9, amended.** `verify_jwt_token` collapses both failure kinds to the
single untyped value `None`: every expired token and every corrupted token
produce the same failure value, so a caller cannot distinguish `Expired`
from `Malformed/ForgedSignature`. -/
theorem C9_failures_indistinguishable (payload : Claims) (now nowOther : Time)
    (h : payload.exp ≤ now) :
    verify_jwt_token (Token.signed payload JWT_SECRET) now = none ∧
    verify_jwt_token Token.corrupt nowOther = none ∧
    verify_jwt_token (Token.signed payload JWT_SECRET) now =
      verify_jwt_token Token.corrupt nowOther := by
  have h1 : verify_jwt_token (Token.signed payload JWT_SECRET) now = none := by
    simp [verify_jwt_token, h]
  exact ⟨h1, rfl, by rw [h1]; rfl⟩

/-- Witness for the amended C9 at a concrete expired token. -/
theorem C9_failures_indistinguishable_witness :
    (5 : Time) ≤ 10 ∧
    (verify_jwt_token (Token.signed ⟨2, "bob", 5⟩ JWT_SECRET) 10 = none ∧
     verify_jwt_token Token.corrupt 99 = none ∧
     verify_jwt_token (Token.signed ⟨2, "bob", 5⟩ JWT_SECRET) 10 =
       verify_jwt_token Token.corrupt 99) :=
  ⟨by decide, C9_failures_indistinguishable ⟨2, "bob", 5⟩ 10 99 (by decide)⟩

/-- **C5.** For every store state and every user, replacing the user's
favorites with `{1, 2, 3}` and then reading them back yields exactly
`[1, 2, 3]`: the previous favorites are fully deleted and only the new set
remains. -/
theorem C5_replace_then_get (db : DB) (user_id : Nat) :
    (get_user_favorites (set_user_favorites db user_id [1, 2, 3]).1 user_id).1 =
      [1, 2, 3] := by
  show ((((db.favorites.filter (fun p : Nat × Int => !(p.1 == user_id))) ++
      ([(user_id, 1), (user_id, 2), (user_id, 3)] : List (Nat × Int))).filter
        (fun p : Nat × Int => p.1 == user_id)).map Prod.snd) = [1, 2, 3]
  rw [List.filter_append, filter_user_of_filter_not_user]
  simp

/-- **C2.** When the Credential Store holds exactly one row for a username,
a signup with that username answers 409 (the source's `ConflictError`
response), returns no token, leaves the store unmutated, and the row count
for that username remains exactly 1. -/
theorem C2_duplicate_signup_conflict (db : DB) (username password : String)
    (now : Time) (h : usernameRowCount db username = 1) :
    Server.signup db username password now = (409, none, db) ∧
    usernameRowCount (Server.signup db username password now).2.2 username = 1 := by
  have hex : user_exists db username = true :=
    user_exists_of_rowCount_pos db username (by rw [h]; exact Nat.one_ne_zero)
  constructor
  · simp [Server.signup, hex]
  · simp [Server.signup, hex, h]

/-- A store holding exactly the user `alice`. -/
def dbWithAlice : DB :=
  { DB.empty with
      users := [{ id := 1, username := "alice",
                  password := sha256_hexdigest "pw", car := none }]
      nextUserId := 2 }

/-- Witness for C2: signing `alice` up again on a store that already holds
one `alice` row answers 409 and keeps the row count at 1. -/
theorem C2_duplicate_signup_conflict_witness :
    usernameRowCount dbWithAlice "alice" = 1 ∧
    (Server.signup dbWithAlice "alice" "pw" 0 = (409, none, dbWithAlice) ∧
     usernameRowCount (Server.signup dbWithAlice "alice" "pw" 0).2.2 "alice" = 1) :=
  ⟨by decide, C2_duplicate_signup_conflict dbWithAlice "alice" "pw" 0 (by decide)⟩


/-- **C1.** For every username not yet in the Credential Store, signing the
pair up once and then logging in with the same pair succeeds, and the token
returned by the login decodes (while unexpired) to claims carrying the same
`user_id` that signup returned. -/
theorem C1_signup_then_login_same_user (db : DB) (username password : String)
    (tSignup tLogin tVerify : Time)
    (hfresh : user_exists db username = false)
    (hlive : tVerify < tLogin + JWT_EXPIRATION_HOURS * 3600) :
    ∃ token : Token,
      authenticate (signup_user db username password tSignup).db
          username password tLogin =
        some ((signup_user db username password tSignup).user_id, token) ∧
      get_user_id_from_token token tVerify =
        some (signup_user db username password tSignup).user_id := by
  have hnone :
      db.users.find?
        (fun r => r.username == username &&
          r.password == sha256_hexdigest password) = none := by
    rw [List.find?_eq_none]
    intro r hr
    have hall := List.any_eq_false.mp (by rw [← hfresh]; rfl) r hr
    simp only [Bool.and_eq_true, not_and]
    intro hu
    exact absurd hu hall
  have husers : (signup_user db username password tSignup).db.users =
      db.users ++ [{ id := db.nextUserId, username := username,
                     password := sha256_hexdigest password, car := none }] := rfl
  have hid : (signup_user db username password tSignup).user_id = db.nextUserId := rfl
  refine ⟨create_jwt_token db.nextUserId username tLogin, ?_, ?_⟩
  · simp only [authenticate, husers, hid]
    rw [find?_append_of_none _ _ hnone]
    simp [List.find?]
  · have hv : verify_jwt_token (create_jwt_token db.nextUserId username tLogin)
        tVerify = some { user_id := db.nextUserId, username := username,
                         exp := tLogin + JWT_EXPIRATION_HOURS * 3600 } := by
      simp [create_jwt_token, verify_jwt_token, Nat.not_le.mpr hlive]
    simp [get_user_id_from_token, hv, hid]

/-- Witness for C1 starting from the empty store: `bob` signs up at time 0,
logs in at time 100, and the login token decodes at time 200 to the user id
that signup returned. -/
theorem C1_signup_then_login_same_user_witness :
    user_exists DB.empty "bob" = false ∧
    (200 : Time) < 100 + JWT_EXPIRATION_HOURS * 3600 ∧
    ∃ token : Token,
      authenticate (signup_user DB.empty "bob" "hunter2" 0).db
          "bob" "hunter2" 100 =
        some ((signup_user DB.empty "bob" "hunter2" 0).user_id, token) ∧
      get_user_id_from_token token 200 =
        some (signup_user DB.empty "bob" "hunter2" 0).user_id :=
  ⟨by decide, by decide,
   C1_signup_then_login_same_user DB.empty "bob" "hunter2" 0 100 200
     (by decide) (by decide)⟩

/-- The row `latestByTimestamp` returns is a member of its input. -/
theorem latestByTimestamp_mem {rows : List Reading} {m : Reading}
    (h : latestByTimestamp rows = some m) : m ∈ rows := by
  induction rows with
  | nil => simp [latestByTimestamp] at h
  | cons a rs ih =>
      rw [latestByTimestamp] at h
      split at h
      · cases h
        exact List.mem_cons_self _ _
      · next b hrs =>
          by_cases hts : a.timestamp > b.timestamp
          · rw [if_pos hts] at h
            cases h
            exact List.mem_cons_self _ _
          · rw [if_neg hts] at h
            cases h
            exact List.mem_cons_of_mem a (ih hrs)

/-- When one row of the list strictly dominates every other row's timestamp,
`latestByTimestamp` returns it. -/
theorem latestByTimestamp_eq_of_max {rows : List Reading} {r : Reading}
    (hmem : r ∈ rows)
    (hmax : ∀ r' ∈ rows, r' = r ∨ r'.timestamp < r.timestamp) :
    latestByTimestamp rows = some r := by
  induction rows with
  | nil => cases hmem
  | cons a rs ih =>
      rw [latestByTimestamp]
      split
      · next hrs =>
          by_cases hr : r ∈ rs
          · have := ih hr (fun r' hr' => hmax r' (List.mem_cons_of_mem a hr'))
            rw [this] at hrs
            cases hrs
          · have hra : r = a := by
              rcases List.mem_cons.mp hmem with h | h
              · exact h
              · exact absurd h hr
            rw [hra]
      · next m hrs =>
          by_cases hr : r ∈ rs
          · have hsome : latestByTimestamp rs = some r :=
              ih hr (fun r' hr' => hmax r' (List.mem_cons_of_mem a hr'))
            rw [hsome] at hrs
            cases hrs
            rcases hmax a (List.mem_cons_self a rs) with ha | ha
            · rw [if_neg]
              rw [ha]
              exact lt_irrefl r.timestamp
            · rw [if_neg]
              exact Nat.not_lt.mpr (Nat.le_of_lt ha)
          · have hra : r = a := by
              rcases List.mem_cons.mp hmem with h | h
              · exact h
              · exact absurd h hr
            have hm : m ∈ rs := latestByTimestamp_mem hrs
            have hmr : m ≠ r := fun hEq => hr (hEq ▸ hm)
            rcases hmax m (List.mem_cons_of_mem a hm) with h | h
            · exact absurd h hmr
            · rw [if_pos]
              · rw [hra]
              · rw [hra] at h
                exact h

/-- `get_latest_sensor_data` with no matching row returns `None`. -/
theorem get_latest_sensor_data_eq_none (db : DB) (sensor_id : Int)
    (h : db.readings.filter (fun r => r.sensor_id == some sensor_id) = []) :
    get_latest_sensor_data db sensor_id = none := by
  rw [get_latest_sensor_data, h]
  rfl

/-- `get_latest_sensor_data` returns the strictly-latest matching row. -/
theorem get_latest_sensor_data_eq_of_max (db : DB) (sensor_id : Int)
    (r : Reading) (hmem : r ∈ db.readings) (hs : r.sensor_id = some sensor_id)
    (hmax : ∀ r' ∈ db.readings, r'.sensor_id = some sensor_id →
      r' = r ∨ r'.timestamp < r.timestamp) :
    get_latest_sensor_data db sensor_id =
      some { is_occupied := r.is_occupied, distance := r.distance,
             timestamp := r.timestamp } := by
  rw [get_latest_sensor_data,
    latestByTimestamp_eq_of_max
      (List.mem_filter.mpr ⟨hmem, by simp [hs]⟩)
      (fun r' hr' => by
        obtain ⟨hmemF, hpredF⟩ := List.mem_filter.mp hr'
        exact hmax r' hmemF (by simpa using hpredF))]
  rfl

/-- **C4.** Recording a sensor-7 reading (distance 5, occupied) and then a
later sensor-7 reading (distance 80, free) makes `get_latest_sensor_data(7)`
return the second reading; in general, for every sensor, the latest reading
is the appended matching row with the maximum timestamp (stated with the
maximum unique, since the store's order on equal timestamps is unspecified),
and `None` when no matching row exists. -/
theorem C4_latest_reading :
    (∀ (db : DB) (ts1 ts2 : Time),
      ts1 < ts2 →
      (∀ r ∈ db.readings, r.sensor_id = some 7 → r.timestamp < ts2) →
      (insert_ultrasonic_data db (JsonVal.num 5) (JsonVal.bool true)
          (JsonVal.num 7) ts1).1 = true ∧
      (insert_ultrasonic_data
          (insert_ultrasonic_data db (JsonVal.num 5) (JsonVal.bool true)
              (JsonVal.num 7) ts1).2.1
          (JsonVal.num 80) (JsonVal.bool false) (JsonVal.num 7) ts2).1 = true ∧
      get_latest_sensor_data
          (insert_ultrasonic_data
              (insert_ultrasonic_data db (JsonVal.num 5) (JsonVal.bool true)
                  (JsonVal.num 7) ts1).2.1
              (JsonVal.num 80) (JsonVal.bool false) (JsonVal.num 7) ts2).2.1 7 =
        some { is_occupied := false, distance := 80, timestamp := ts2 }) ∧
    (∀ (db : DB) (s : Int),
      db.readings.filter (fun r => r.sensor_id == some s) = [] →
      get_latest_sensor_data db s = none) ∧
    (∀ (db : DB) (s : Int) (r : Reading),
      r ∈ db.readings → r.sensor_id = some s →
      (∀ r' ∈ db.readings, r'.sensor_id = some s →
        r' = r ∨ r'.timestamp < r.timestamp) →
      get_latest_sensor_data db s =
        some { is_occupied := r.is_occupied, distance := r.distance,
               timestamp := r.timestamp }) := by
  refine ⟨?_, get_latest_sensor_data_eq_none, get_latest_sensor_data_eq_of_max⟩
  intro db ts1 ts2 h12 hall
  have e1 : insert_ultrasonic_data db (JsonVal.num 5) (JsonVal.bool true)
      (JsonVal.num 7) ts1 =
      (true,
       { db with readings := db.readings ++
           [{ sensor_id := some 7, distance := 5, is_occupied := true,
              timestamp := ts1 }] },
       [StoreCall.ultrasonicCreateTable, StoreCall.ultrasonicInsert]) := rfl
  have e2 : insert_ultrasonic_data
        { db with readings := db.readings ++
            [{ sensor_id := some 7, distance := 5, is_occupied := true,
               timestamp := ts1 }] }
        (JsonVal.num 80) (JsonVal.bool false) (JsonVal.num 7) ts2 =
        (true,
         { db with readings := (db.readings ++
             [{ sensor_id := some 7, distance := 5, is_occupied := true,
                timestamp := ts1 }]) ++
             [{ sensor_id := some 7, distance := 80, is_occupied := false,
                timestamp := ts2 }] },
         [StoreCall.ultrasonicCreateTable, StoreCall.ultrasonicInsert]) := rfl
  refine ⟨by rw [e1], ?_, ?_⟩
  · rw [e1]
    dsimp only
    rw [e2]
  · rw [e1]
    dsimp only
    rw [e2]
    exact get_latest_sensor_data_eq_of_max _ 7
      { sensor_id := some 7, distance := 80, is_occupied := false,
        timestamp := ts2 }
      (List.mem_append_right _ (List.mem_cons_self _ _))
      rfl
      (by
        intro r' hr' hs'
        rcases List.mem_append.mp hr' with hin | hin
        · rcases List.mem_append.mp hin with hdb | hone
          · exact Or.inr (hall r' hdb hs')
          · rcases List.mem_cons.mp hone with hEq | hnil
            · right
              rw [hEq]
              exact h12
            · cases hnil
        · rcases List.mem_cons.mp hin with hEq | hnil
          · exact Or.inl hEq
          · cases hnil)

/-- A store holding one sensor-7 reading. -/
def dbOneReading : DB :=
  { DB.empty with
      readings := [{ sensor_id := some 7, distance := 80, is_occupied := false,
                     timestamp := 1 }] }

/-- Witness for C4: the two-insert scenario run from the empty store at
times 0 and 1, the no-readings case for sensor 9, and the unique-maximum
case on a one-reading store. -/
theorem C4_latest_reading_witness :
    ((0 : Time) < 1 ∧
     (∀ r ∈ DB.empty.readings, r.sensor_id = some 7 → r.timestamp < 1) ∧
     ((insert_ultrasonic_data DB.empty (JsonVal.num 5) (JsonVal.bool true)
          (JsonVal.num 7) 0).1 = true ∧
      (insert_ultrasonic_data
          (insert_ultrasonic_data DB.empty (JsonVal.num 5) (JsonVal.bool true)
              (JsonVal.num 7) 0).2.1
          (JsonVal.num 80) (JsonVal.bool false) (JsonVal.num 7) 1).1 = true ∧
      get_latest_sensor_data
          (insert_ultrasonic_data
              (insert_ultrasonic_data DB.empty (JsonVal.num 5) (JsonVal.bool true)
                  (JsonVal.num 7) 0).2.1
              (JsonVal.num 80) (JsonVal.bool false) (JsonVal.num 7) 1).2.1 7 =
        some { is_occupied := false, distance := 80, timestamp := 1 })) ∧
    (DB.empty.readings.filter (fun r => r.sensor_id == some 9) = [] ∧
     get_latest_sensor_data DB.empty 9 = none) ∧
    get_latest_sensor_data dbOneReading 7 =
      some { is_occupied := false, distance := 80, timestamp := 1 } :=
  ⟨⟨by decide, by simp [DB.empty],
    C4_latest_reading.1 DB.empty 0 1 (by decide) (by simp [DB.empty])⟩,
   ⟨by decide, C4_latest_reading.2.1 DB.empty 9 (by decide)⟩,
   C4_latest_reading.2.2 dbOneReading 7
     { sensor_id := some 7, distance := 80, is_occupied := false, timestamp := 1 }
     (by decide) (by decide) (by decide)⟩

/-- The requests C6 quantifies over: the `Authorization` header is missing,
is not a bearer header, carries a structurally corrupted token, carries an
expired token, or carries a token signed with the wrong secret. -/
def authFailure (header : AuthHeader) (now : Time) : Prop :=
  header = AuthHeader.missing ∨
  (∃ s, header = AuthHeader.notBearer s) ∨
  header = AuthHeader.bearer Token.corrupt ∨
  (∃ payload, header = AuthHeader.bearer (Token.signed payload JWT_SECRET) ∧
    payload.exp ≤ now) ∨
  (∃ payload secret, header = AuthHeader.bearer (Token.signed payload secret) ∧
    secret ≠ JWT_SECRET)

/-- On any request of `authFailure` shape, the `jwt_required` decorator
returns its own 401 response and never enters the wrapped view. -/
theorem jwt_required_of_authFailure {α : Type} (header : AuthHeader)
    (now : Time) (fail : α) (ok : Claims → α)
    (h : authFailure header now) :
    Server.jwt_required header now fail ok = fail := by
  rcases h with h | ⟨s, h⟩ | h | ⟨payload, h, hexp⟩ | ⟨payload, secret, h, hsec⟩
  · rw [h]
    rfl
  · rw [h]
    rfl
  · rw [h]
    rfl
  · rw [h]
    simp [Server.jwt_required, Server.extractToken, verify_jwt_token, hexp]
  · rw [h]
    simp [Server.jwt_required, Server.extractToken, verify_jwt_token, hsec]

/-- **C6.** Every identity-scoped request — favorites read, favorites
write, profile (car) update — carrying a missing, malformed, corrupted,
expired, or forged token is answered 401 by the `jwt_required` gate before
its view runs: the store receives zero calls and is unchanged. -/
theorem C6_identity_routes_reject_bad_tokens (db : DB) (header : AuthHeader)
    (now : Time) (favorites : List Int) (body : ReqBody)
    (h : authFailure header now) :
    Server.get_favorites db header now = (401, none, db, []) ∧
    Server.update_favorites db header now favorites = (401, db, []) ∧
    Server.update_car db header now body = (401, db, []) :=
  ⟨jwt_required_of_authFailure header now _ _ h,
   jwt_required_of_authFailure header now _ _ h,
   jwt_required_of_authFailure header now _ _ h⟩

/-- Witness for C6: an expired bearer token at time 10 is rejected by all
three identity-scoped routes with zero store calls. -/
theorem C6_identity_routes_reject_bad_tokens_witness :
    authFailure (AuthHeader.bearer (Token.signed ⟨1, "alice", 5⟩ JWT_SECRET)) 10 ∧
    (Server.get_favorites DB.empty
        (AuthHeader.bearer (Token.signed ⟨1, "alice", 5⟩ JWT_SECRET)) 10 =
      (401, none, DB.empty, []) ∧
     Server.update_favorites DB.empty
        (AuthHeader.bearer (Token.signed ⟨1, "alice", 5⟩ JWT_SECRET)) 10 [1, 2] =
      (401, DB.empty, []) ∧
     Server.update_car DB.empty
        (AuthHeader.bearer (Token.signed ⟨1, "alice", 5⟩ JWT_SECRET)) 10
        (ReqBody.notJson "x") =
      (401, DB.empty, [])) :=
  ⟨Or.inr (Or.inr (Or.inr (Or.inl ⟨⟨1, "alice", 5⟩, rfl, by decide⟩))),
   C6_identity_routes_reject_bad_tokens DB.empty
     (AuthHeader.bearer (Token.signed ⟨1, "alice", 5⟩ JWT_SECRET)) 10 [1, 2]
     (ReqBody.notJson "x")
     (Or.inr (Or.inr (Or.inr (Or.inl ⟨⟨1, "alice", 5⟩, rfl, by decide⟩))))⟩

/-- An `/upload` body whose `sensor_id` field is absent. -/
def uploadNoSensorId : ReqBody :=
  ReqBody.jsonObj [("distance", JsonVal.num 42), ("is_occupied", JsonVal.bool true)]

/-- **C7, counterexample.** The claim asserts that a sensor report without
`sensor_id` is answered with a client error and that storage is untouched.
On the concrete report `{distance: 42, is_occupied: true}` the gateway
answers 200, the store gains a row, and the storage layer receives calls:
the source performs no validation at all. -/
theorem C7_counterexample :
    (Server.receive_sensor_data DB.empty uploadNoSensorId 3).1 = 200 ∧
    (Server.receive_sensor_data DB.empty uploadNoSensorId 3).2.1 ≠ DB.empty ∧
    (Server.receive_sensor_data DB.empty uploadNoSensorId 3).2.2 ≠ [] := by
  refine ⟨rfl, ?_, ?_⟩
  · decide
  · decide

/-- **C7, amended.** The `/upload` gateway performs no validation: a report
whose `sensor_id` is absent but whose other fields are storable is accepted
with 200 and written as a row with a NULL `sensor_id`; a report whose
`is_occupied` is not boolean-coercible is answered 500 (a server error, not
a client error) after the storage layer has already received the
create-table and insert calls, with no row committed. -/
theorem C7_upload_unvalidated (db : DB) (fields : List (String × JsonVal))
    (now : Time) :
    (∀ d b, jsonLookup fields "sensor_id" = none →
      pgFloatNotNull (jsonGet fields "distance") = some d →
      pgBoolNotNull (jsonGet fields "is_occupied") = some b →
      Server.receive_sensor_data db (ReqBody.jsonObj fields) now =
        (200,
         { db with readings := db.readings ++
             [{ sensor_id := none, distance := d, is_occupied := b,
                timestamp := now }] },
         [StoreCall.ultrasonicCreateTable, StoreCall.ultrasonicInsert])) ∧
    (pgBoolNotNull (jsonGet fields "is_occupied") = none →
      Server.receive_sensor_data db (ReqBody.jsonObj fields) now =
        (500, db, [StoreCall.ultrasonicCreateTable, StoreCall.ultrasonicInsert])) := by
  constructor
  · intro d b h1 h2 h3
    simp only [jsonGet] at h2 h3
    simp [Server.receive_sensor_data, insert_ultrasonic_data, jsonGet, h1, h2, h3,
      pgBigintNullable]
  · intro hocc
    simp only [jsonGet] at hocc
    cases hF : pgFloatNotNull ((jsonLookup fields "distance").getD JsonVal.null) with
    | none =>
        simp [Server.receive_sensor_data, insert_ultrasonic_data, jsonGet, hF, hocc]
    | some d =>
        cases hS : pgBigintNullable ((jsonLookup fields "sensor_id").getD JsonVal.null) with
        | none =>
            simp [Server.receive_sensor_data, insert_ultrasonic_data, jsonGet, hF, hocc, hS]
        | some sid =>
            simp [Server.receive_sensor_data, insert_ultrasonic_data, jsonGet, hF, hocc, hS]

/-- Witness for the amended C7: the sensor-id-less report is accepted and
written; a report without `is_occupied` is answered 500 with the storage
calls made. -/
theorem C7_upload_unvalidated_witness :
    (jsonLookup [("distance", JsonVal.num 42), ("is_occupied", JsonVal.bool true)]
        "sensor_id" = none ∧
     Server.receive_sensor_data DB.empty uploadNoSensorId 3 =
       (200,
        { DB.empty with readings :=
            [{ sensor_id := none, distance := 42, is_occupied := true,
               timestamp := 3 }] },
        [StoreCall.ultrasonicCreateTable, StoreCall.ultrasonicInsert])) ∧
    (pgBoolNotNull (jsonGet [("sensor_id", JsonVal.num 7), ("distance", JsonVal.num 4)]
        "is_occupied") = none ∧
     Server.receive_sensor_data DB.empty
        (ReqBody.jsonObj [("sensor_id", JsonVal.num 7), ("distance", JsonVal.num 4)]) 3 =
       (500, DB.empty,
        [StoreCall.ultrasonicCreateTable, StoreCall.ultrasonicInsert])) :=
  ⟨⟨by decide,
    by
      have h := (C7_upload_unvalidated DB.empty
        [("distance", JsonVal.num 42), ("is_occupied", JsonVal.bool true)] 3).1
        42 true (by decide) (by decide) (by decide)
      simpa [uploadNoSensorId, DB.empty] using h⟩,
   ⟨by decide,
    (C7_upload_unvalidated DB.empty
      [("sensor_id", JsonVal.num 7), ("distance", JsonVal.num 4)] 3).2
      (by decide)⟩⟩

/-- A store holding one unoccupied spot. -/
def dbOneSpot : DB :=
  { DB.empty with spots := [{ id := 1, occupancy := false }] }

/-- **C8, counterexample.** The claim asserts that a malformed
`PUT /occupancy` body fails with a 400 ValidationError. On the concrete
non-JSON body `"nonsense"` the exception raised by `json.loads` escapes the
view unhandled and the request is answered 500, not 400 (the spots are
indeed left unchanged). -/
theorem C8_counterexample :
    (Server.update_occupancy dbOneSpot (ReqBody.notJson "nonsense")).1 = 500 ∧
    (Server.update_occupancy dbOneSpot (ReqBody.notJson "nonsense")).1 ≠ 400 ∧
    (Server.update_occupancy dbOneSpot (ReqBody.notJson "nonsense")).2 = dbOneSpot := by
  refine ⟨rfl, ?_, rfl⟩
  decide

/-- A malformed `PUT /occupancy` body in the claim's sense: not JSON, or
JSON missing `spot_id` or `spot_occupancy`. -/
def malformedOccupancyBody (body : ReqBody) : Prop :=
  (∃ s, body = ReqBody.notJson s) ∨
  (∃ fields, body = ReqBody.jsonObj fields ∧
    (jsonLookup fields "spot_id" = none ∨
     jsonLookup fields "spot_occupancy" = none))

/-- **C8, amended.** A malformed `PUT /occupancy` body (not JSON, or
missing `spot_id` or `spot_occupancy`) makes the request fail with a 500
response from the unhandled exception — not a 400 ValidationError — and the
failure is raised before any statement executes, so every spot's occupancy
is left unchanged. -/
theorem C8_malformed_occupancy_500 (db : DB) (body : ReqBody)
    (h : malformedOccupancyBody body) :
    Server.update_occupancy db body = (500, db) := by
  rcases h with ⟨s, hb⟩ | ⟨fields, hb, hmiss⟩
  · rw [hb]
    rfl
  · rw [hb]
    rcases hmiss with hid | hocc
    · simp [Server.update_occupancy, update_entity, hid]
    · cases hid : jsonLookup fields "spot_id" with
      | none => simp [Server.update_occupancy, update_entity, hid]
      | some v => simp [Server.update_occupancy, update_entity, hid, hocc]

/-- Witness for the amended C8: a non-JSON body and a body missing
`spot_occupancy` are both answered 500 with the store unchanged. -/
theorem C8_malformed_occupancy_500_witness :
    malformedOccupancyBody (ReqBody.notJson "nonsense") ∧
    Server.update_occupancy dbOneSpot (ReqBody.notJson "nonsense") =
      (500, dbOneSpot) ∧
    malformedOccupancyBody (ReqBody.jsonObj [("spot_id", JsonVal.num 1)]) ∧
    Server.update_occupancy dbOneSpot (ReqBody.jsonObj [("spot_id", JsonVal.num 1)]) =
      (500, dbOneSpot) :=
  ⟨Or.inl ⟨"nonsense", rfl⟩,
   C8_malformed_occupancy_500 dbOneSpot (ReqBody.notJson "nonsense")
     (Or.inl ⟨"nonsense", rfl⟩),
   Or.inr ⟨[("spot_id", JsonVal.num 1)], rfl, Or.inr (by decide)⟩,
   C8_malformed_occupancy_500 dbOneSpot (ReqBody.jsonObj [("spot_id", JsonVal.num 1)])
     (Or.inr ⟨[("spot_id", JsonVal.num 1)], rfl, Or.inr (by decide)⟩)⟩

/-- **C10.** A `GET /sensor-data` request that omits the `sensor_id` query
argument, or supplies one that `int()` rejects, behaves exactly as if
`sensor_id=1` had been supplied: it answers 200 with the latest reading of
sensor 1, or 404 when sensor 1 has none. -/
theorem C10_sensor_arg_defaults_to_one (db : DB) (arg : Option String)
    (h : arg = none ∨ ∃ s, arg = some s ∧ Server.parsePyInt s = none) :
    Server.get_sensor_data db arg = Server.get_sensor_data db (some "1") ∧
    (get_latest_sensor_data db 1 = none →
      Server.get_sensor_data db arg = (404, none)) ∧
    (∀ d, get_latest_sensor_data db 1 = some d →
      Server.get_sensor_data db arg = (200, some d)) := by
  have harg : Server.get_sensor_data db arg =
      (match get_latest_sensor_data db 1 with
       | some data => (200, some data)
       | none => (404, none)) := by
    rcases h with h | ⟨s, h, hparse⟩
    · rw [h]
      rfl
    · rw [h]
      show (match get_latest_sensor_data db ((Server.parsePyInt s).getD 1) with
            | some data => (200, some data)
            | none => (404, none)) = _
      rw [hparse]
      rfl
  have hp : Server.parsePyInt "1" = some 1 := by decide
  have hone : Server.get_sensor_data db (some "1") =
      (match get_latest_sensor_data db 1 with
       | some data => (200, some data)
       | none => (404, none)) := by
    show (match get_latest_sensor_data db ((Server.parsePyInt "1").getD 1) with
          | some data => (200, some data)
          | none => (404, none)) = _
    rw [hp]
    rfl
  refine ⟨by rw [harg, hone], ?_, ?_⟩
  · intro hnone
    rw [harg, hnone]
  · intro d hsome
    rw [harg, hsome]

/-- Witness for C10: with an empty store, the argument `"abc"` (rejected by
`int()`) behaves like `sensor_id=1` and yields 404. -/
theorem C10_sensor_arg_defaults_to_one_witness :
    (Server.parsePyInt "abc" = none) ∧
    (Server.get_sensor_data DB.empty (some "abc") =
       Server.get_sensor_data DB.empty (some "1") ∧
     (get_latest_sensor_data DB.empty 1 = none →
       Server.get_sensor_data DB.empty (some "abc") = (404, none)) ∧
     (∀ d, get_latest_sensor_data DB.empty 1 = some d →
       Server.get_sensor_data DB.empty (some "abc") = (200, some d))) :=
  ⟨by decide,
   C10_sensor_arg_defaults_to_one DB.empty (some "abc")
     (Or.inr ⟨"abc", rfl, by decide⟩)⟩
